import Mathlib

/-!
# DeepClaude — verification of the specification against the source

Shallow embedding of the parts of the DeepClaude gateway that the claims
C1–C10 are about:

* `app/clients/deepseek_client.py` — the reasoning extractor
  (`DeepSeekClient.chat`, both native mode and `<think>`-tag-sniff mode,
  and `_process_think_tag_content`), and the 5-into-4 tuple destructuring
  of the model request info.
* `app/config/model_config.py` — `ProviderConfig`, `BaseModelConfig`,
  `DeepModelConfig`, `ModelConfig` with its validators,
  `get_model_request_info`, and the module-level `MODEL_CONFIG` accessor.
* `app/utils/config/manager.py` / `loader.py` — `ModelConfigManager` and
  `load_model_config`.
* `app/main.py` — `get_and_validate_params`.
* `app/clients/claude_client.py` — the request-body construction of
  `ClaudeClient.chat` (header/body per provider kind, temperature clamp).

Python strings are `String`, Python numbers are modelled as a tagged value
(`PyVal`) over `ℚ`/`ℤ` so that the `isinstance(…, float)` distinction of the
source is visible, `dict.get` returning `None` is `Option`, and raising an
exception is `Except.error`.
-/

namespace DeepClaude

/-! ## Python primitives -/

/-- Python `pat in s` on lists of characters: `pat` occurs contiguously in
`s`.  Matches the empty pattern everywhere, like Python. -/
def subListIn (pat : List Char) : List Char → Bool
  | [] => pat.isPrefixOf []
  | a :: rest => pat.isPrefixOf (a :: rest) || subListIn pat rest

/-- Python substring containment `pat in s` for strings. -/
def pyIn (pat s : String) : Bool := subListIn pat.data s.data

/-- Whether an `Except` computation returned normally (did not raise). -/
def exceptOk {ε α : Type} : Except ε α → Bool
  | .ok _ => true
  | .error _ => false

/-! ## `DeepSeekClient._process_think_tag_content`
(`app/clients/deepseek_client.py`, lines 19–40). -/

/-- `DeepSeekClient._process_think_tag_content(content)`: returns
`(whether a complete think tag pair was detected, the content unchanged)`. -/
def process_think_tag_content (content : String) : Bool × String :=
  let has_start := pyIn "<think>" content
  let has_end := pyIn "</think>" content
  if has_start && has_end then (true, content)
  else if has_start then (false, content)
  else if !has_start && !has_end then (false, content)
  else (true, content)

/-! ## Tag-sniff mode of `DeepSeekClient.chat`
(`app/clients/deepseek_client.py`, lines 81–82 and 118–154).

The loop state is the pair of local variables `accumulated_content` and
`is_collecting_think`; each upstream delta with a truthy `content` field is
processed by the `else` branch of the `is_origin_reasoning` test. -/

/-- The extractor state of the tag-sniff loop: `accumulated_content` and
`is_collecting_think`. -/
structure SniffState where
  accumulated : String
  collecting : Bool
deriving DecidableEq, Repr

/-- One iteration of the tag-sniff branch of `DeepSeekClient.chat` for a
single delta `content` string (an empty or absent `content` is skipped by
the `if delta.get("content")` truthiness test).  Returns the updated state
and the `(kind, text)` pairs yielded, in order.  Note that, exactly as in
the source, the result of `_process_think_tag_content(accumulated_content)`
is computed but never used by the branch conditions, which test the raw
delta `content` only. -/
def processTagDelta (st : SniffState) (content : String) :
    SniffState × List (String × String) :=
  if content = "" then (st, [])
  else
    let accumulated := st.accumulated ++ content
    let _check := process_think_tag_content accumulated
    if pyIn "<think>" content && !st.collecting then
      (⟨accumulated, true⟩, [("reasoning", content)])
    else if st.collecting then
      if pyIn "</think>" content then
        (⟨"", false⟩, [("reasoning", content), ("content", "")])
      else
        (⟨accumulated, true⟩, [("reasoning", content)])
    else
      (⟨accumulated, false⟩, [("content", content)])

/-- Run the tag-sniff loop from a given state over a list of delta
`content` strings, collecting every yielded `(kind, text)` pair. -/
def runSniff (st : SniffState) : List String → List (String × String)
  | [] => []
  | c :: rest =>
    (processTagDelta st c).2 ++ runSniff (processTagDelta st c).1 rest

/-- The whole tag-sniff pass of one `DeepSeekClient.chat` call: start with
an empty buffer, outside a think block. -/
def processDeltas (deltas : List String) : List (String × String) :=
  runSniff ⟨"", false⟩ deltas

/-! ## Native mode of `DeepSeekClient.chat`
(`app/clients/deepseek_client.py`, lines 103–117). -/

/-- A decoded SSE delta object: `delta.get("reasoning_content")` and
`delta.get("content")`, `none` when the key is absent or `null`. -/
structure Delta where
  reasoning_content : Option String
  content : Option String
deriving DecidableEq, Repr

/-- The native-mode (`is_origin_reasoning`) branch of `DeepSeekClient.chat`
for one delta: `if delta.get("reasoning_content"): yield "reasoning", …`
then `if delta.get("reasoning_content") is None and delta.get("content"):
yield "content", …`. -/
def processNativeDelta (d : Delta) : List (String × String) :=
  (match d.reasoning_content with
   | some s => if s ≠ "" then [("reasoning", s)] else []
   | none => []) ++
  (if d.reasoning_content.isNone then
     match d.content with
     | some s => if s ≠ "" then [("content", s)] else []
     | none => []
   else [])

/-! ## Model configuration (`app/config/model_config.py`). -/

/-- `ProviderType`: the three provider kinds. -/
inductive ProviderType
  | anthropic
  | openrouter
  | openaiCompatible
deriving DecidableEq, Repr

/-- `ProviderConfig` (fields are statically typed here, so the pydantic
type/None validators hold by construction). -/
structure ProviderConfig where
  name : String
  type : ProviderType
  base_url : String
  api_key : String
  use_proxy : Bool
deriving DecidableEq, Repr

/-- `BaseModelConfig`. -/
structure BaseModelConfig where
  name : String
  model_id : String
  provider : String
  context : Int
  max_tokens : Int
deriving DecidableEq, Repr

/-- `DeepModelConfig`. -/
structure DeepModelConfig where
  name : String
  reason_model : String
  answer_model : String
  is_origin_reasoning : Bool
deriving DecidableEq, Repr

/-- The `ModelConfig` record: the three lists. The `_provider_map`,
`_base_model_map` and `_deep_model_map` dictionaries built by
`_build_maps` are derived from the lists by `dictGet` below. -/
structure ModelConfig where
  providers : List ProviderConfig
  base_models : List BaseModelConfig
  deep_models : List DeepModelConfig
deriving DecidableEq, Repr

/-- Lookup in a Python dict comprehension `{key(x): x for x in xs}`:
a later entry overwrites an earlier one, so the lookup returns the last
element of `xs` whose key matches. -/
def dictGet {α : Type} (key : α → String) (xs : List α) (n : String) :
    Option α :=
  xs.reverse.find? (fun x => key x == n)

/-- `ModelConfig.get_provider`. -/
def ModelConfig.get_provider (cfg : ModelConfig) (name : String) :
    Except String ProviderConfig :=
  match dictGet ProviderConfig.name cfg.providers name with
  | some p => .ok p
  | none => .error ("Provider " ++ name ++ " not found")

/-- `ModelConfig.get_base_model`. -/
def ModelConfig.get_base_model (cfg : ModelConfig) (name : String) :
    Except String BaseModelConfig :=
  match dictGet BaseModelConfig.name cfg.base_models name with
  | some m => .ok m
  | none => .error ("Model " ++ name ++ " not found")

/-- `ModelConfig.get_deep_model`. -/
def ModelConfig.get_deep_model (cfg : ModelConfig) (name : String) :
    Except String DeepModelConfig :=
  match dictGet DeepModelConfig.name cfg.deep_models name with
  | some m => .ok m
  | none => .error ("Deep model " ++ name ++ " not found")

/-- `ModelConfig.get_model_request_info(model_name)`: the 5-tuple
`(model_id, base_url, api_key, provider_type, use_proxy)`. -/
def ModelConfig.get_model_request_info (cfg : ModelConfig)
    (model_name : String) :
    Except String (String × String × String × ProviderType × Bool) :=
  match cfg.get_base_model model_name with
  | .error e => .error e
  | .ok base_model =>
    match cfg.get_provider base_model.provider with
    | .error e => .error e
    | .ok provider =>
      .ok (base_model.model_id, provider.base_url, provider.api_key,
           provider.type, provider.use_proxy)

/-- `len(names) != len(set(names))`, the duplicate test used by
`_check_unique_provider_names` and `_check_unique_base_model_names`. -/
def hasDuplicateNames (names : List String) : Bool :=
  decide (names.length ≠ names.dedup.length)

/-- `_check_reference_existence`: every base model's provider exists and
every deep model's reason/answer model exists. -/
def referencesOk (ps : List ProviderConfig) (bs : List BaseModelConfig)
    (ds : List DeepModelConfig) : Bool :=
  bs.all (fun m => ps.any (fun p => p.name == m.provider)) &&
  ds.all (fun m =>
    bs.any (fun b => b.name == m.reason_model) &&
    bs.any (fun b => b.name == m.answer_model))

/-- Construction of a `ModelConfig` (`ModelConfig(**data)`): the
`model_validator`s in sequence.  There is a uniqueness validator for
provider names and for base-model names, but none for deep-model names;
the not-`None` field validators hold by typing; `_build_maps` cannot fail
once `_check_reference_existence` has passed. -/
def mkModelConfig (ps : List ProviderConfig) (bs : List BaseModelConfig)
    (ds : List DeepModelConfig) : Except String ModelConfig :=
  if hasDuplicateNames (ps.map ProviderConfig.name) then
    .error "Provider names must be unique"
  else if hasDuplicateNames (bs.map BaseModelConfig.name) then
    .error "Base model names must be unique"
  else if !referencesOk ps bs ds then
    .error "reference not found"
  else
    .ok ⟨ps, bs, ds⟩

/-! ## The two config singletons
(`app/config/model_config.py` lines 201–214, `app/utils/config/manager.py`,
`app/utils/config/loader.py`). -/

/-- The mutable process state: `ModelConfigManager._model_config` and the
module-level `MODEL_CONFIG` of `app/config/model_config.py`.  Both start
as `None`. -/
structure ProcState where
  managerConfig : Option ModelConfig
  moduleConfig : Option ModelConfig
deriving DecidableEq, Repr

/-- Process start: neither store is initialised. -/
def procInit : ProcState := ⟨none, none⟩

/-- `ModelConfigManager.set_model_config(data)`. -/
def managerSetModelConfig (st : ProcState) (cfg : ModelConfig) : ProcState :=
  { st with managerConfig := some cfg }

/-- The module-level `set_model_config(data)` of
`app/config/model_config.py`.  No code under `app/` ever calls it. -/
def moduleSetModelConfig (st : ProcState) (cfg : ModelConfig) : ProcState :=
  { st with moduleConfig := some cfg }

/-- `ModelConfigManager.get_model_config()`. -/
def managerGetModelConfig (st : ProcState) : Except String ModelConfig :=
  match st.managerConfig with
  | some c => .ok c
  | none => .error "Model config not initialized"

/-- The module-level `get_model_config()` of `app/config/model_config.py`,
the accessor imported by `DeepSeekClient`. -/
def moduleGetModelConfig (st : ProcState) : Except String ModelConfig :=
  match st.moduleConfig with
  | some c => .ok c
  | none => .error "Model config not initialized"

/-- `load_model_config` (`app/utils/config/loader.py`): parse the YAML
data (modelled as the already-typed three lists) and call
`ModelConfigManager.set_model_config`, i.e. construct the `ModelConfig`
and store it in the manager's class attribute only. -/
def load_model_config (st : ProcState) (ps : List ProviderConfig)
    (bs : List BaseModelConfig) (ds : List DeepModelConfig) :
    Except String ProcState := do
  let cfg ← mkModelConfig ps bs ds
  pure (managerSetModelConfig st cfg)

/-- `DeepSeekClient.__init__`: `self._model_config = get_model_config()`
with the module-level accessor of `app/config/model_config.py`. -/
def deepSeekClientInit (st : ProcState) : Except String ModelConfig :=
  moduleGetModelConfig st

/-- `ClaudeClient.__init__`:
`self._model_config = ModelConfigManager.get_model_config()`. -/
def claudeClientInit (st : ProcState) : Except String ModelConfig :=
  managerGetModelConfig st

/-! ## The prelude of `DeepSeekClient.chat`
(`app/clients/deepseek_client.py`, lines 63–66).

The source destructures the return value of `get_model_request_info` into
four names: `model_id, base_url, api_key, provider_type = …`.  Python
tuple unpacking is modelled on an untyped value list. -/

/-- An untyped Python value, for modelling tuple unpacking. -/
inductive PyObj
  | str (s : String)
  | ptype (t : ProviderType)
  | pbool (b : Bool)
deriving DecidableEq, Repr

/-- The 5-tuple returned by `get_model_request_info`, as a value list. -/
def requestInfoToList :
    String × String × String × ProviderType × Bool → List PyObj
  | (model_id, base_url, api_key, ptype, use_proxy) =>
    [.str model_id, .str base_url, .str api_key, .ptype ptype,
     .pbool use_proxy]

/-- Python unpacking `a1, …, an = xs`: succeeds exactly when `xs` has `n`
elements, otherwise raises `ValueError`. -/
def pyUnpack (n : Nat) (xs : List PyObj) : Except String (List PyObj) :=
  if xs.length = n then .ok xs
  else if n < xs.length then
    .error ("ValueError: too many values to unpack (expected " ++
            toString n ++ ")")
  else
    .error ("ValueError: not enough values to unpack (expected " ++
            toString n ++ ")")

/-- One call of `DeepSeekClient.chat` over an already-decoded list of
upstream deltas: first the prelude — look up the request info and
destructure it into **four** names — then, were that to succeed, the
streaming loop in the chosen mode.  The result is the list of `(kind,
text)` pairs the generator yields, or the exception it raises before
yielding anything. -/
def deepseekChat (cfg : ModelConfig) (base_model_name : String)
    (is_origin_reasoning : Bool) (deltas : List Delta) :
    Except String (List (String × String)) := do
  let info ← cfg.get_model_request_info base_model_name
  let _four ← pyUnpack 4 (requestInfoToList info)
  pure (if is_origin_reasoning then
          deltas.flatMap processNativeDelta
        else
          runSniff ⟨"", false⟩ (deltas.filterMap Delta.content))

/-! ## `get_and_validate_params` (`app/main.py`, lines 142–161). -/

/-- A JSON number as Python sees it: `float` or `int`.
`isinstance(x, float)` is true only for the first. -/
inductive PyVal
  | float (q : ℚ)
  | int (n : ℤ)
deriving DecidableEq, Repr

/-- `isinstance(·, float)`. -/
def PyVal.isFloat : PyVal → Bool
  | .float _ => true
  | .int _ => false

/-- The numeric value, for comparisons. -/
def PyVal.val : PyVal → ℚ
  | .float q => q
  | .int n => (n : ℚ)

/-- The request-body fields `get_and_validate_params` reads; `none` means
the key is absent and the `body.get` default applies. -/
structure RequestBody where
  model : Option String
  temperature : Option PyVal
  top_p : Option PyVal
  presence_penalty : Option PyVal
  frequency_penalty : Option PyVal
  stream : Option Bool
deriving DecidableEq, Repr

/-- `get_and_validate_params(body)`: read the five parameters with their
defaults; if `"sonnet" in body.get("model", "")`, raise unless the
temperature is a `float` in `[0, 1]`; return the parameter tuple. -/
def get_and_validate_params (body : RequestBody) :
    Except String (PyVal × PyVal × PyVal × PyVal × Bool) :=
  if pyIn "sonnet" (body.model.getD "") then
    if (body.temperature.getD (.float (1 / 2))).isFloat = false ∨
        (body.temperature.getD (.float (1 / 2))).val < 0 ∨
        (body.temperature.getD (.float (1 / 2))).val > 1 then
      .error "Sonnet temperature must be between 0 and 1"
    else
      .ok (body.temperature.getD (.float (1 / 2)),
           body.top_p.getD (.float (9 / 10)),
           body.presence_penalty.getD (.float 0),
           body.frequency_penalty.getD (.float 0),
           body.stream.getD true)
  else
    .ok (body.temperature.getD (.float (1 / 2)),
         body.top_p.getD (.float (9 / 10)),
         body.presence_penalty.getD (.float 0),
         body.frequency_penalty.getD (.float 0),
         body.stream.getD true)

/-! ## Request-body construction in `ClaudeClient.chat`
(`app/clients/claude_client.py`, lines 50–120). -/

/-- A chat message `{role, content}`. -/
structure ChatMessage where
  role : String
  content : String
deriving DecidableEq, Repr

/-- The JSON request body `data` built by `ClaudeClient.chat`; fields a
provider kind does not set are `none`. -/
structure ClaudeRequestData where
  model : String
  messages : List ChatMessage
  stream : Bool
  temperature : ℚ
  top_p : ℚ
  presence_penalty : Option ℚ
  frequency_penalty : Option ℚ
  max_tokens : Option Int
  system : Option String
deriving DecidableEq, Repr

/-- The body-building part of `ClaudeClient.chat`, per provider kind.
`model_arg` is `(temperature, top_p, presence_penalty,
frequency_penalty)`; each branch computes
`1 if model_arg[0] < 0 or model_arg[0] > 1 else model_arg[0]` for the
temperature, exactly as the source does. -/
def claudeBuildRequestData (provider_type : ProviderType)
    (model_id : String) (messages : List ChatMessage)
    (model_arg : ℚ × ℚ × ℚ × ℚ) (system_prompt : Option String) :
    ClaudeRequestData :=
  match provider_type with
  | .openrouter =>
    let msgs := match system_prompt with
      | some sp => ⟨"system", sp⟩ :: messages
      | none => messages
    { model := "anthropic/claude-3.5-sonnet"
      messages := msgs
      stream := true
      temperature :=
        if model_arg.1 < 0 ∨ model_arg.1 > 1 then 1 else model_arg.1
      top_p := model_arg.2.1
      presence_penalty := some model_arg.2.2.1
      frequency_penalty := some model_arg.2.2.2
      max_tokens := none
      system := none }
  | .openaiCompatible =>
    let msgs := match system_prompt with
      | some sp => ⟨"system", sp⟩ :: messages
      | none => messages
    { model := model_id
      messages := msgs
      stream := true
      temperature :=
        if model_arg.1 < 0 ∨ model_arg.1 > 1 then 1 else model_arg.1
      top_p := model_arg.2.1
      presence_penalty := some model_arg.2.2.1
      frequency_penalty := some model_arg.2.2.2
      max_tokens := none
      system := none }
  | .anthropic =>
    { model := model_id
      messages := messages
      stream := true
      temperature :=
        if model_arg.1 < 0 ∨ model_arg.1 > 1 then 1 else model_arg.1
      top_p := model_arg.2.1
      presence_penalty := none
      frequency_penalty := none
      max_tokens := some 8192
      system := system_prompt }

/-! ## Properties of the tag-sniff extractor -/

/-- The end-of-reasoning handoff event: the yielded pair `("content", "")`. -/
def handoffEvent : String × String := ("content", "")

/-- An ordinary answer event: kind `"content"` with non-empty text. -/
def plainContentEvent (e : String × String) : Bool :=
  decide (e.1 = "content" ∧ e.2 ≠ "")

/-- No handoff and no reasoning event occurs in `l`. -/
def noMoreReasoning (l : List (String × String)) : Bool :=
  l.all (fun e => decide (e ≠ handoffEvent ∧ e.1 ≠ "reasoning"))

/-- The at-most-one-handoff property of an event list: at the first
handoff (if any), the remainder holds no further handoff and no further
reasoning event. -/
def goodOutput : List (String × String) → Bool
  | [] => true
  | e :: rest =>
    if e = handoffEvent then noMoreReasoning rest else goodOutput rest

theorem processTagDelta_empty (st : SniffState) :
    processTagDelta st "" = (st, []) := by
  simp [processTagDelta]

theorem processTagDelta_open (st : SniffState) (c : String) (hc : c ≠ "")
    (ho : pyIn "<think>" c = true) (hst : st.collecting = false) :
    processTagDelta st c =
      (⟨st.accumulated ++ c, true⟩, [("reasoning", c)]) := by
  simp [processTagDelta, hc, ho, hst]

theorem processTagDelta_insideClose (st : SniffState) (c : String)
    (hc : c ≠ "") (hst : st.collecting = true)
    (hcl : pyIn "</think>" c = true) :
    processTagDelta st c =
      (⟨"", false⟩, [("reasoning", c), ("content", "")]) := by
  simp [processTagDelta, hc, hst, hcl]

theorem processTagDelta_insideCont (st : SniffState) (c : String)
    (hc : c ≠ "") (hst : st.collecting = true)
    (hcl : pyIn "</think>" c = false) :
    processTagDelta st c =
      (⟨st.accumulated ++ c, true⟩, [("reasoning", c)]) := by
  simp [processTagDelta, hc, hst, hcl]

theorem processTagDelta_outsidePlain (st : SniffState) (c : String)
    (hc : c ≠ "") (hst : st.collecting = false)
    (ho : pyIn "<think>" c = false) :
    processTagDelta st c =
      (⟨st.accumulated ++ c, false⟩, [("content", c)]) := by
  simp [processTagDelta, hc, hst, ho]

/-- Outside a think block, with no delta containing `<think>`, the loop
yields only plain content events. -/
theorem runSniff_outside_all_plain (ds : List String) :
    ∀ st : SniffState, st.collecting = false →
    (∀ c ∈ ds, pyIn "<think>" c = false) →
    (runSniff st ds).all plainContentEvent = true := by
  induction ds with
  | nil => intro st _ _; rfl
  | cons c rest ih =>
    intro st hst hds
    have hco : pyIn "<think>" c = false := hds c (by simp)
    have hrest : ∀ c' ∈ rest, pyIn "<think>" c' = false :=
      fun c' hc' => hds c' (List.mem_cons_of_mem _ hc')
    by_cases hc : c = ""
    · subst hc
      simp only [runSniff, processTagDelta_empty]
      simpa using ih st hst hrest
    · simp only [runSniff, processTagDelta_outsidePlain st c hc hst hco]
      simp only [List.all_append, Bool.and_eq_true]
      refine ⟨?_, ih ⟨st.accumulated ++ c, false⟩ rfl hrest⟩
      simp [plainContentEvent, hc]

/-- A list of plain content events holds no handoff and no reasoning. -/
theorem noMoreReasoning_of_all_plain (l : List (String × String))
    (h : l.all plainContentEvent = true) : noMoreReasoning l = true := by
  simp only [List.all_eq_true, plainContentEvent, decide_eq_true_eq] at h
  simp only [noMoreReasoning, List.all_eq_true, decide_eq_true_eq]
  intro e he
  obtain ⟨h1, h2⟩ := h e he
  refine ⟨fun hcontra => ?_, ?_⟩
  · rw [hcontra] at h2
    exact h2 rfl
  · rw [h1]
    intro hcontra
    exact absurd hcontra (by decide)

/-- A list of plain content events satisfies the handoff property. -/
theorem goodOutput_of_all_plain (l : List (String × String))
    (h : l.all plainContentEvent = true) : goodOutput l = true := by
  induction l with
  | nil => rfl
  | cons e rest ih =>
    simp only [List.all_cons, Bool.and_eq_true] at h
    have he : e ≠ handoffEvent := by
      intro hcontra
      rw [hcontra] at h
      exact absurd h.1 (by decide)
    simp only [goodOutput, if_neg he]
    exact ih h.2

/-- Inside a think block, with no delta containing `<think>`, the loop
emits at most one handoff and no reasoning after it. -/
theorem runSniff_inside_good (ds : List String) :
    ∀ st : SniffState, st.collecting = true →
    (∀ c ∈ ds, pyIn "<think>" c = false) →
    goodOutput (runSniff st ds) = true := by
  induction ds with
  | nil => intro st _ _; rfl
  | cons c rest ih =>
    intro st hst hds
    have hrest : ∀ c' ∈ rest, pyIn "<think>" c' = false :=
      fun c' hc' => hds c' (List.mem_cons_of_mem _ hc')
    by_cases hc : c = ""
    · subst hc
      simp only [runSniff, processTagDelta_empty]
      simpa using ih st hst hrest
    · by_cases hcl : pyIn "</think>" c = true
      · simp only [runSniff, processTagDelta_insideClose st c hc hst hcl]
        have htail := runSniff_outside_all_plain rest ⟨"", false⟩ rfl hrest
        have hnmr := noMoreReasoning_of_all_plain _ htail
        have hne : (("reasoning", c) : String × String) ≠ handoffEvent := by
          intro hcontra
          have h1 : "reasoning" = "content" := congrArg Prod.fst hcontra
          exact absurd h1 (by decide)
        simp only [List.cons_append, List.nil_append, goodOutput,
          if_neg hne, if_pos rfl]
        exact hnmr
      · have hcl' : pyIn "</think>" c = false := by
          simpa using hcl
        simp only [runSniff, processTagDelta_insideCont st c hc hst hcl']
        have hne : (("reasoning", c) : String × String) ≠ handoffEvent := by
          intro hcontra
          have h1 : "reasoning" = "content" := congrArg Prod.fst hcontra
          exact absurd h1 (by decide)
        simp only [List.cons_append, List.nil_append, goodOutput, if_neg hne]
        exact ih ⟨st.accumulated ++ c, true⟩ rfl hrest

/-- From outside a think block, if at most one remaining delta contains
`<think>`, the loop emits at most one handoff and no reasoning after it. -/
theorem runSniff_good_of_atMostOne (ds : List String) :
    ∀ st : SniffState, st.collecting = false →
    (ds.filter (fun c => pyIn "<think>" c)).length ≤ 1 →
    goodOutput (runSniff st ds) = true := by
  induction ds with
  | nil => intro st _ _; rfl
  | cons c rest ih =>
    intro st hst h1
    have hmono : (rest.filter (fun c => pyIn "<think>" c)).length ≤
        ((c :: rest).filter (fun c => pyIn "<think>" c)).length := by
      rw [List.filter_cons]
      split
      · simp
      · exact le_refl _
    by_cases hc : c = ""
    · subst hc
      simp only [runSniff, processTagDelta_empty]
      simpa using ih st hst (le_trans hmono h1)
    · by_cases ho : pyIn "<think>" c = true
      · have hcount : (rest.filter (fun c => pyIn "<think>" c)).length = 0 := by
          rw [List.filter_cons, if_pos (by simpa using ho)] at h1
          simpa using h1
        have hrest0 : ∀ c' ∈ rest, pyIn "<think>" c' = false := by
          intro c' hc'
          have := List.length_eq_zero.mp hcount
          by_contra hcontra
          have hmem : c' ∈ rest.filter (fun c => pyIn "<think>" c) :=
            List.mem_filter.mpr ⟨hc', by simpa using hcontra⟩
          rw [this] at hmem
          exact absurd hmem (List.not_mem_nil c')
        simp only [runSniff, processTagDelta_open st c hc ho hst]
        have hgood := runSniff_inside_good rest
          ⟨st.accumulated ++ c, true⟩ rfl hrest0
        have hne : (("reasoning", c) : String × String) ≠ handoffEvent := by
          intro hcontra
          have hx : "reasoning" = "content" := congrArg Prod.fst hcontra
          exact absurd hx (by decide)
        simp only [List.cons_append, List.nil_append, goodOutput, if_neg hne]
        exact hgood
      · have ho' : pyIn "<think>" c = false := by simpa using ho
        simp only [runSniff, processTagDelta_outsidePlain st c hc hst ho']
        have hne : (("content", c) : String × String) ≠ handoffEvent := by
          intro hcontra
          have hx : c = "" := congrArg Prod.snd hcontra
          exact hc hx
        simp only [List.cons_append, List.nil_append, goodOutput, if_neg hne]
        exact ih ⟨st.accumulated ++ c, false⟩ rfl (le_trans hmono h1)

/-! ## Lookup lemmas for the config registry -/

/-- `len(names) == len(set(names))` means the names are pairwise
distinct. -/
theorem nodup_of_hasDuplicateNames_false (names : List String)
    (h : hasDuplicateNames names = false) : names.Nodup := by
  unfold hasDuplicateNames at h
  rw [decide_eq_false_iff_not] at h
  push_neg at h
  have hsub : names.dedup.Sublist names := List.dedup_sublist names
  have heq : names.dedup = names := hsub.eq_of_length h.symm
  have hnd := List.nodup_dedup names
  rwa [heq] at hnd

/-- Looking up an element of a keyed list with pairwise-distinct keys by
its own key finds it. -/
theorem dictGet_mem {α : Type} (key : α → String) (xs : List α)
    (hnd : (xs.map key).Nodup) (a : α) (ha : a ∈ xs) :
    dictGet key xs (key a) = some a := by
  unfold dictGet
  have hsome : (xs.reverse.find? (fun x => key x == key a)).isSome := by
    rw [List.find?_isSome]
    exact ⟨a, List.mem_reverse.mpr ha, by simp⟩
  obtain ⟨b, hfind⟩ := Option.isSome_iff_exists.mp hsome
  have hpb := List.find?_some hfind
  have hmb : b ∈ xs := List.mem_reverse.mp (List.mem_of_find?_eq_some hfind)
  have hkey : key b = key a := by simpa using hpb
  have hba : b = a := List.inj_on_of_nodup_map hnd hmb ha hkey
  rw [hfind, hba]

/-- Looking up a key held by no element misses. -/
theorem dictGet_not_mem {α : Type} (key : α → String) (xs : List α)
    (n : String) (h : ∀ x ∈ xs, key x ≠ n) : dictGet key xs n = none := by
  unfold dictGet
  rw [List.find?_eq_none]
  intro x hx
  simp [h x (List.mem_reverse.mp hx)]

/-! ## Sample configuration data, used by the concrete witnesses -/

/-- A sample provider list. -/
def sampleProviders : List ProviderConfig :=
  [⟨"deepseek", .openaiCompatible, "https://api.deepseek.com", "sk-r", false⟩,
   ⟨"anthropic", .anthropic, "https://api.anthropic.com", "sk-a", true⟩]

/-- A sample base-model list. -/
def sampleBaseModels : List BaseModelConfig :=
  [⟨"reasoner", "deepseek-reasoner", "deepseek", 65536, 8192⟩,
   ⟨"sonnet", "claude-3-5-sonnet", "anthropic", 200000, 8192⟩]

/-- A sample deep-model list. -/
def sampleDeepModels : List DeepModelConfig :=
  [⟨"deepclaude", "reasoner", "sonnet", true⟩]

/-- The sample `ModelConfig` value. -/
def sampleConfig : ModelConfig :=
  ⟨sampleProviders, sampleBaseModels, sampleDeepModels⟩

/-! ## The claims -/

/-- C1: the claim says a `<think>`/`</think>` tag split across two
consecutive deltas is still recognized because the buffer accumulates
across deltas, yielding a single Reasoning sequence and one handoff.  The
code evaluates the accumulated-buffer detection
(`_process_think_tag_content`) but never uses its result: the branch
conditions test the raw delta only.  On the delta sequence
`["<thi", "nk>r", "</think>"]` the split `<think>` tag is never detected —
every delta is yielded as plain content, no reasoning event and no handoff
occur — even though the accumulated buffer does contain a complete tag
pair, as the second conjunct shows. -/
theorem c1_split_tag_yields_plain_content :
    processDeltas ["<thi", "nk>r", "</think>"] =
      [("content", "<thi"), ("content", "nk>r"), ("content", "</think>")] ∧
    (process_think_tag_content ("<thi" ++ "nk>r" ++ "</think>")).1 = true := by
  constructor
  · decide
  · decide

/-- C2: whenever the config lookup inside `DeepSeekClient.chat` succeeds,
the destructuring of the 5-tuple returned by `get_model_request_info` into
four names raises `ValueError`, so the generator terminates with that
error before building headers or yielding any event, in both modes and
for every upstream delta sequence. -/
theorem c2_deepseek_chat_unpack_raises (cfg : ModelConfig) (name : String)
    (mode : Bool) (deltas : List Delta)
    (info : String × String × String × ProviderType × Bool)
    (h : cfg.get_model_request_info name = .ok info) :
    deepseekChat cfg name mode deltas =
      .error "ValueError: too many values to unpack (expected 4)" := by
  obtain ⟨a, b, c, d, e⟩ := info
  simp only [deepseekChat, h]
  rfl

/-- C2 witness: on the sample config, looking up the base model
`"reasoner"` succeeds and `DeepSeekClient.chat` raises the unpack
`ValueError` without yielding anything. -/
theorem c2_witness :
    deepseekChat sampleConfig "reasoner" true [⟨some "hm", none⟩] =
      .error "ValueError: too many values to unpack (expected 4)" :=
  c2_deepseek_chat_unpack_raises sampleConfig "reasoner" true
    [⟨some "hm", none⟩]
    ("deepseek-reasoner", "https://api.deepseek.com", "sk-r",
     .openaiCompatible, false) rfl

/-- C3: the claim says that after `load_model_config` every config
accessor — including the module-level `get_model_config` used by
`DeepSeekClient.__init__` — returns the loaded config without raising.
In the code `load_model_config` stores the config only in
`ModelConfigManager._model_config`; the module-level `MODEL_CONFIG` of
`app/config/model_config.py` is never set, so after a successful load the
manager accessor returns the config but `DeepSeekClient.__init__` raises
`ValueError("Model config not initialized")`. -/
theorem c3_module_get_model_config_uninitialized :
    ∃ st : ProcState,
      load_model_config procInit sampleProviders sampleBaseModels
        sampleDeepModels = .ok st ∧
      managerGetModelConfig st = .ok sampleConfig ∧
      deepSeekClientInit st = .error "Model config not initialized" :=
  ⟨⟨some sampleConfig, none⟩, rfl, rfl, rfl⟩

/-- C4 counterexample: on the delta sequence
`["<think>", "a</think>", "<think>", "b</think>"]` the tag-sniff loop of
`DeepSeekClient.chat` yields the handoff `("content", "")` twice, and a
reasoning event follows the first handoff — refuting the claim that the
handoff is emitted at most once per call with no reasoning after it. -/
theorem c4_counterexample_two_handoffs :
    processDeltas ["<think>", "a</think>", "<think>", "b</think>"] =
      [("reasoning", "<think>"), ("reasoning", "a</think>"),
       ("content", ""), ("reasoning", "<think>"),
       ("reasoning", "b</think>"), ("content", "")] ∧
    goodOutput
      (processDeltas ["<think>", "a</think>", "<think>", "b</think>"]) =
      false := by
  constructor
  · decide
  · decide

/-- C4 (amended): for every upstream delta sequence in which at most one
delta contains `<think>`, the handoff `("content", "")` is emitted at most
once by the tag-sniff loop, and after it no further `("reasoning", _)`
event (and no further handoff) is yielded; with several `<think>`-bearing
deltas the loop re-enters collection and can emit further handoffs. -/
theorem c4_amended_single_handoff (deltas : List String)
    (h : (deltas.filter (fun c => pyIn "<think>" c)).length ≤ 1) :
    goodOutput (processDeltas deltas) = true :=
  runSniff_good_of_atMostOne deltas ⟨"", false⟩ rfl h

/-- C4 witness: a one-think-block stream satisfies the amended claim. -/
theorem c4_witness :
    (["<think>", "a", "</think>", "tail"].filter
      (fun c => pyIn "<think>" c)).length ≤ 1 ∧
    goodOutput (processDeltas ["<think>", "a", "</think>", "tail"]) = true :=
  ⟨by decide, c4_amended_single_handoff ["<think>", "a", "</think>", "tail"]
    (by decide)⟩

/-- C5 counterexample: a delta containing both `<think>` and `</think>`
that arrives while reasoning is **not** yet being collected takes the
tag-opening branch only: it is yielded as a single reasoning event with
no `("content", "")` handoff, and the extractor stays in the collecting
state instead of returning to OUTSIDE — refuting the claim for the
"including a delta that contains both tags" case. -/
theorem c5_counterexample_both_tags_no_handoff :
    processDeltas ["<think>hmm</think>"] =
      [("reasoning", "<think>hmm</think>")] ∧
    (processTagDelta ⟨"", false⟩ "<think>hmm</think>").1.collecting =
      true := by
  constructor
  · decide
  · decide

/-- C5 (amended): for every content delta containing `</think>` that
arrives while reasoning is already being collected
(`is_collecting_think = true`) — whether or not it also contains
`<think>` — the loop yields that delta as a `("reasoning", text)` event,
then the empty handoff `("content", "")`, clears the accumulation buffer
and returns to the OUTSIDE (not-collecting) state.  A delta containing
both tags that arrives while not collecting instead only starts
collection. -/
theorem c5_amended_close_inside_yields_handoff (st : SniffState)
    (c : String) (hst : st.collecting = true)
    (hcl : pyIn "</think>" c = true) (hc : c ≠ "") :
    processTagDelta st c =
      (⟨"", false⟩, [("reasoning", c), ("content", "")]) :=
  processTagDelta_insideClose st c hc hst hcl

/-- C5 witness: a concrete closing delta while collecting. -/
theorem c5_witness :
    processTagDelta ⟨"<think>part", true⟩ "ial</think>" =
      (⟨"", false⟩, [("reasoning", "ial</think>"), ("content", "")]) :=
  c5_amended_close_inside_yields_handoff ⟨"<think>part", true⟩
    "ial</think>" rfl (by decide) (by decide)

/-- C6: in native mode, a delta whose `reasoning_content` is a non-empty
string is yielded as `("reasoning", text)` unchanged, and a delta carrying
a non-empty `content` and no `reasoning_content` is yielded as
`("content", text)`. -/
theorem c6_native_mode_events (d : Delta) (s : String) :
    (d.reasoning_content = some s → s ≠ "" →
      processNativeDelta d = [("reasoning", s)]) ∧
    (d.reasoning_content = none → d.content = some s → s ≠ "" →
      processNativeDelta d = [("content", s)]) := by
  constructor
  · intro h1 h2
    simp [processNativeDelta, h1, h2]
  · intro h1 h2 h3
    simp [processNativeDelta, h1, h2, h3]

/-- C6 witness: concrete reasoning and content deltas. -/
theorem c6_witness :
    processNativeDelta ⟨some "Two plus two", none⟩ =
      [("reasoning", "Two plus two")] ∧
    processNativeDelta ⟨none, some "4"⟩ = [("content", "4")] :=
  ⟨(c6_native_mode_events ⟨some "Two plus two", none⟩ "Two plus two").1 rfl
      (by decide),
   (c6_native_mode_events ⟨none, some "4"⟩ "4").2 rfl rfl (by decide)⟩

/-- C7 counterexample: for the body `{model: "claude-3-5-sonnet",
temperature: 1}` — a JSON integer, whose value lies inside `[0, 1]` — the
claim says `get_and_validate_params` returns normally, but the
`isinstance(temperature, float)` test fails for an `int`, so the function
raises. -/
theorem c7_counterexample_int_temperature :
    exceptOk (get_and_validate_params
      ⟨some "claude-3-5-sonnet", some (.int 1), none, none, none, none⟩) =
      false ∧
    (0 : ℚ) ≤ (PyVal.int 1).val ∧ (PyVal.int 1).val ≤ 1 := by
  constructor
  · decide
  · constructor
    · decide
    · decide

/-- C7 (amended): `get_and_validate_params` raises exactly when the
body's model string contains `"sonnet"` and its temperature (defaulting
to the float 0.5) is either not a float or lies outside `[0, 1]`; in
particular every in-range **float** temperature (such as 1.0) passes. -/
theorem c7_amended_raise_iff (body : RequestBody) :
    exceptOk (get_and_validate_params body) = false ↔
      (pyIn "sonnet" (body.model.getD "") = true ∧
       ((body.temperature.getD (.float (1 / 2))).isFloat = false ∨
        (body.temperature.getD (.float (1 / 2))).val < 0 ∨
        (body.temperature.getD (.float (1 / 2))).val > 1)) := by
  unfold get_and_validate_params
  by_cases h1 : pyIn "sonnet" (body.model.getD "") = true
  · rw [if_pos h1]
    by_cases h2 : (body.temperature.getD (.float (1 / 2))).isFloat = false ∨
        (body.temperature.getD (.float (1 / 2))).val < 0 ∨
        (body.temperature.getD (.float (1 / 2))).val > 1
    · rw [if_pos h2]
      exact ⟨fun _ => ⟨h1, h2⟩, fun _ => rfl⟩
    · rw [if_neg h2]
      constructor
      · intro hcontra
        exact absurd hcontra (by simp [exceptOk])
      · rintro ⟨-, hx⟩
        exact absurd hx h2
  · rw [if_neg h1]
    constructor
    · intro hcontra
      exact absurd hcontra (by simp [exceptOk])
    · rintro ⟨hx, -⟩
      exact absurd hx h1

/-- C8 counterexample: a config whose two deep models share the name
`"d"` (with all references valid) is accepted whole by the `ModelConfig`
validators — there is no uniqueness check for deep-model names —
refuting the claim that construction fails when two deep models share a
name. -/
theorem c8_counterexample_duplicate_deep_names :
    exceptOk (mkModelConfig
      [⟨"p", .anthropic, "https://a", "k", false⟩]
      [⟨"b", "mid", "p", 1000, 100⟩]
      [⟨"d", "b", "b", true⟩, ⟨"d", "b", "b", false⟩]) = true ∧
    ¬ (List.map DeepModelConfig.name
        [⟨"d", "b", "b", true⟩, ⟨"d", "b", "b", false⟩]).Nodup := by
  constructor
  · decide
  · decide

/-- C8 (amended): constructing a `ModelConfig` fails whenever two
providers share a name or two base models share a name; duplicate
deep-model names are **not** rejected; and for every input with provider
and base-model names unique and all references valid, construction
succeeds whole. -/
theorem c8_amended_validation (ps : List ProviderConfig)
    (bs : List BaseModelConfig) (ds : List DeepModelConfig) :
    ((hasDuplicateNames (ps.map ProviderConfig.name) = true ∨
      hasDuplicateNames (bs.map BaseModelConfig.name) = true) →
      exceptOk (mkModelConfig ps bs ds) = false) ∧
    (hasDuplicateNames (ps.map ProviderConfig.name) = false →
     hasDuplicateNames (bs.map BaseModelConfig.name) = false →
     referencesOk ps bs ds = true →
     exceptOk (mkModelConfig ps bs ds) = true) := by
  unfold mkModelConfig
  split_ifs with h1 h2 h3 <;> simp_all [exceptOk]

/-- C8 witness: duplicate provider names are rejected; the sample config
(unique names, valid references) is accepted. -/
theorem c8_witness :
    exceptOk (mkModelConfig
      [⟨"p", .anthropic, "https://a", "k", false⟩,
       ⟨"p", .openrouter, "https://b", "k2", true⟩] [] []) = false ∧
    exceptOk (mkModelConfig sampleProviders sampleBaseModels
      sampleDeepModels) = true :=
  ⟨(c8_amended_validation _ [] []).1 (Or.inl (by decide)),
   (c8_amended_validation sampleProviders sampleBaseModels
      sampleDeepModels).2 (by decide) (by decide) (by decide)⟩

/-- C9: on every validly constructed `ModelConfig`,
`get_model_request_info` returns, for every base-model name present,
exactly the 5-tuple of that base model's `model_id` and its provider's
`base_url`, `api_key`, `type` and `use_proxy`; and for every name not
present it raises the unknown-model error. -/
theorem c9_get_model_request_info_resolves (ps : List ProviderConfig)
    (bs : List BaseModelConfig) (ds : List DeepModelConfig)
    (cfg : ModelConfig) (hcfg : mkModelConfig ps bs ds = .ok cfg) :
    (∀ bm ∈ cfg.base_models, ∀ p ∈ cfg.providers, p.name = bm.provider →
      cfg.get_model_request_info bm.name =
        .ok (bm.model_id, p.base_url, p.api_key, p.type, p.use_proxy)) ∧
    (∀ n, n ∉ cfg.base_models.map BaseModelConfig.name →
      cfg.get_model_request_info n =
        .error ("Model " ++ n ++ " not found")) := by
  unfold mkModelConfig at hcfg
  split_ifs at hcfg with h1 h2 h3
  cases hcfg
  have hndp : (ps.map ProviderConfig.name).Nodup :=
    nodup_of_hasDuplicateNames_false _ (by simpa using h1)
  have hndb : (bs.map BaseModelConfig.name).Nodup :=
    nodup_of_hasDuplicateNames_false _ (by simpa using h2)
  constructor
  · intro bm hbm p hp hname
    have hd1 : dictGet BaseModelConfig.name bs bm.name = some bm :=
      dictGet_mem BaseModelConfig.name bs hndb bm hbm
    have hd2 : dictGet ProviderConfig.name ps bm.provider = some p := by
      rw [← hname]
      exact dictGet_mem ProviderConfig.name ps hndp p hp
    simp [ModelConfig.get_model_request_info, ModelConfig.get_base_model,
      ModelConfig.get_provider, hd1, hd2]
  · intro n hn
    have hne : ∀ bm ∈ bs, BaseModelConfig.name bm ≠ n := by
      intro bm hbm hcontra
      exact hn (hcontra ▸ List.mem_map_of_mem BaseModelConfig.name hbm)
    have hd : dictGet BaseModelConfig.name bs n = none :=
      dictGet_not_mem BaseModelConfig.name bs n hne
    simp [ModelConfig.get_model_request_info, ModelConfig.get_base_model,
      hd]

/-- C9 witness: on the sample config, the name `"sonnet"` resolves to its
base model's and provider's fields, and a missing name raises. -/
theorem c9_witness :
    sampleConfig.get_model_request_info "sonnet" =
      .ok ("claude-3-5-sonnet", "https://api.anthropic.com", "sk-a",
        .anthropic, true) ∧
    sampleConfig.get_model_request_info "missing" =
      .error ("Model " ++ "missing" ++ " not found") :=
  ⟨(c9_get_model_request_info_resolves sampleProviders sampleBaseModels
      sampleDeepModels sampleConfig rfl).1
      ⟨"sonnet", "claude-3-5-sonnet", "anthropic", 200000, 8192⟩ (by decide)
      ⟨"anthropic", .anthropic, "https://api.anthropic.com", "sk-a", true⟩
      (by decide) rfl,
   (c9_get_model_request_info_resolves sampleProviders sampleBaseModels
      sampleDeepModels sampleConfig rfl).2 "missing" (by decide)⟩

/-- Evaluation of the temperature clamp expression
`1 if t < 0 or t > 1 else t` over `ℚ`. -/
theorem clamp_expr_eval (t : ℚ) :
    ((0 ≤ t ∧ t ≤ 1) → (if t < 0 ∨ t > 1 then (1 : ℚ) else t) = t) ∧
    ((t < 0 ∨ t > 1) → (if t < 0 ∨ t > 1 then (1 : ℚ) else t) = 1) := by
  constructor
  · rintro ⟨h0, h1⟩
    have hn : ¬(t < 0 ∨ t > 1) := by
      push_neg
      exact ⟨h0, h1⟩
    rw [if_neg hn]
  · intro h
    rw [if_pos h]

/-- C10: for every provider kind handled by `ClaudeClient.chat` and every
temperature `t` in `model_arg`, the `temperature` field of the built
request body equals `t` when `0 ≤ t ≤ 1` and equals `1` when `t < 0` or
`t > 1`. -/
theorem c10_claude_temperature_clamp (pt : ProviderType)
    (model_id : String) (messages : List ChatMessage) (t p1 p2 p3 : ℚ)
    (sp : Option String) :
    ((0 ≤ t ∧ t ≤ 1) →
      (claudeBuildRequestData pt model_id messages (t, p1, p2, p3)
        sp).temperature = t) ∧
    ((t < 0 ∨ t > 1) →
      (claudeBuildRequestData pt model_id messages (t, p1, p2, p3)
        sp).temperature = 1) := by
  cases pt <;> cases sp <;>
    exact ⟨fun h => (clamp_expr_eval t).1 h, fun h => (clamp_expr_eval t).2 h⟩

/-- C10 witness: an in-range temperature passes through; an out-of-range
temperature becomes 1, for two different provider kinds. -/
theorem c10_witness :
    (claudeBuildRequestData .anthropic "claude-3-5-sonnet" []
      ((1 : ℚ) / 2, 9 / 10, 0, 0) none).temperature = 1 / 2 ∧
    (claudeBuildRequestData .openrouter "claude-3-5-sonnet" []
      ((3 : ℚ) / 2, 9 / 10, 0, 0) none).temperature = 1 :=
  ⟨(c10_claude_temperature_clamp .anthropic "claude-3-5-sonnet" []
      ((1 : ℚ) / 2) (9 / 10) 0 0 none).1 (by norm_num),
   (c10_claude_temperature_clamp .openrouter "claude-3-5-sonnet" []
      ((3 : ℚ) / 2) (9 / 10) 0 0 none).2 (by norm_num)⟩

end DeepClaude
